import Mathlib

/-
Shallow embedding of the `sci_analysis` analysis engine
(src/sci_analysis/analysis/analysis.py) and the parts of its data-model
collaborators that the analysis code needs.  Numeric data is modelled by ℚ;
a NaN entry of a sequence is modelled by `none`.  The scipy statistical
routines are external collaborators and are modelled as an abstract oracle
record (`SciPy`): every statement below is about the branching, cleaning and
result-assembly logic of the analysis code, uniformly in the oracle.
Python exceptions are modelled by an explicit `Except PyErr` channel.
-/

namespace SciAnalysis

/-- Python exception kinds that the modelled code can raise. -/
inductive PyErr where
  | typeError
  | valueError
  | keyError
  | unboundLocal
  deriving DecidableEq

/-- Modelled from the spec: the data-sample collaborator
(src/sci_analysis/data/vector.py is not under src/).  Per the spec a sample
is "an ordered sequence of floating-point values"; an entry is `none` when it
is NaN or a value that cannot be coerced to a number (the spec's cleaning
contract discards both). -/
abbrev Vec := List (Option ℚ)

/-- Modelled from the spec: `Vector` is "constructible from any iterable of
numbers or numeric-like strings"; in this model construction keeps the
entries, with non-coercible entries already represented by `none`. -/
def Vector (d : Vec) : Vec := d

/-- Modelled from the spec: `drop_nan` removes the NaN entries of a sample
(src/sci_analysis/operations/data_operations.py is not under src/). -/
def drop_nan (v : Vec) : Vec := v.filter (fun e => e.isSome)

/-- Emptiness check of the vector collaborator (`Vector.is_empty`). -/
def Vec.isEmptyV (v : Vec) : Bool := v.isEmpty

/-- Modelled from the spec: `drop_nan_intersect` jointly drops any index where
either vector holds NaN; "a NaN in either position removes that index from
both". -/
def drop_nan_intersect (x y : Vec) : Vec × Vec :=
  let ps := (x.zip y).filter (fun p => p.1.isSome && p.2.isSome)
  (ps.map Prod.fst, ps.map Prod.snd)

/-- A raw constructor argument of a `Test`: a non-iterable scalar (`none`
when `float()` coercion would fail), a plain iterable, or an already-built
`Vector`. -/
inductive TInput where
  | scalar (x : Option ℚ)
  | raw (d : Vec)
  | vec (v : Vec)
  deriving DecidableEq

/-- Modelled from the spec: `is_iterable` from the missing
data_operations.py — scalars are not iterable, sequences and Vectors are. -/
def TInput.is_iterable : TInput → Bool
  | .scalar _ => false
  | .raw _ => false || true
  | .vec _ => true

/-- Modelled from the spec: `is_group` from the missing data_operations.py —
a group is a non-empty collection whose members are all iterable samples
(the spec's "group collection ... a collection of >= 2 samples"). -/
def is_group (args : List TInput) : Bool :=
  !args.isEmpty && args.all TInput.is_iterable

/-- An element of the cleaned data list built by `Test.data_prep`: a coerced
float scalar or a cleaned Vector. -/
inductive CleanItem where
  | num (q : ℚ)
  | vec (v : Vec)
  deriving DecidableEq

/-- The `_data` member of a constructed `Test`: either the cleaned list, or —
when the list had at most one element — its single element
(`if len(data) <= 1: data = data[0]`, IndexError on `[]` caught). -/
inductive TestData where
  | one (c : CleanItem)
  | items (l : List CleanItem)
  deriving DecidableEq

/-- `Test.data_prep` (analysis.py lines 173-186): scalars are coerced with
`float` (failures skipped), iterables are wrapped as Vectors, NaN-dropped and
skipped — not rejected with an error — when empty or of length at most
`min_size`. -/
def Test.data_prep (min_size : Nat) : List TInput → List CleanItem
  | [] => []
  | a :: rest =>
    match a with
    | .scalar (some q) => .num q :: Test.data_prep min_size rest
    | .scalar none => Test.data_prep min_size rest
    | .raw d =>
      let v := drop_nan (Vector d)
      if v.isEmptyV || decide (v.length ≤ min_size) then Test.data_prep min_size rest
      else .vec v :: Test.data_prep min_size rest
    | .vec d =>
      let v := drop_nan d
      if v.isEmptyV || decide (v.length ≤ min_size) then Test.data_prep min_size rest
      else .vec v :: Test.data_prep min_size rest

/-- The unwrap step of `Test.__init__` (lines 145-149): a cleaned list of
length at most one is replaced by its only element; the IndexError on an
empty list is caught, leaving the empty list. -/
def Test.unwrap : List CleanItem → TestData
  | [c] => .one c
  | l => .items l

/-- `Test.__init__` data handling (line 144): group arguments go through
`data_prep` as a list; otherwise `data_prep(*args)` is called, which raises
TypeError for every non-group argument tuple (wrong arity for zero or two or
more arguments, iteration over a non-iterable for one scalar argument). -/
def Test.init (min_size : Nat) (args : List TInput) : Except PyErr TestData :=
  if is_group args then .ok (Test.unwrap (Test.data_prep min_size args))
  else .error .typeError

/-- `Comparison.data_prep` (lines 208-220): both inputs are wrapped as
Vectors; a length mismatch, an undersized input or an empty input silently
falls through (`pass`) and returns the pair unchanged and uncleaned — no
error is raised; otherwise the pair is NaN-intersected.  The second guard
checks `len(xdata)` twice (sic, as in the source). -/
def Comparison.data_prep (min_size : Nat) (d0 d1 : Vec) : Vec × Vec :=
  let xdata := Vector d0
  let ydata := Vector d1
  if xdata.length ≠ ydata.length then (xdata, ydata)
  else if xdata.length ≤ min_size ∨ xdata.length ≤ min_size then (xdata, ydata)
  else if xdata.isEmptyV ∨ ydata.isEmptyV then (xdata, ydata)
  else drop_nan_intersect xdata ydata

/-- A key of the `_results` dict: the run methods store string keys; the
`analyze` dispatcher reads the integer key 0. -/
inductive RKey where
  | s (k : String)
  | i (n : Int)
  deriving DecidableEq

/-- A value of the `_results` dict: a number or a variant tag string. -/
inductive RVal where
  | num (q : ℚ)
  | str (t : String)
  deriving DecidableEq

/-- The `_results` mapping of an analysis, as an insertion-ordered
association list (later entries never shadow earlier ones in this code:
each run builds its dict once). -/
abbrev Results := List (RKey × RVal)

/-- Dict lookup `results[k]`. -/
def Results.get (r : Results) (k : RKey) : Option RVal :=
  (r.find? (fun e => decide (e.1 = k))).map (·.2)

/-- The `Test.statistic` property (lines 157-163): `results['statistic']`,
with a KeyError mapped to `float('nan')` — modelled by `none`. -/
def Test.statistic (r : Results) : Option RVal := r.get (.s "statistic")

/-- The `Test.p_value` property (lines 165-171): `results['p_value']`, with a
KeyError mapped to `float('nan')` — modelled by `none`. -/
def Test.p_value (r : Results) : Option RVal := r.get (.s "p_value")

/-- The comparison `v > alpha` on a possibly-missing result value: Python
`float('nan') > alpha` is `False`, so a missing value never exceeds alpha.
A numeric value compares numerically (the run methods only store numeric
p-values). -/
def rvalGT (v : Option RVal) (alpha : ℚ) : Bool :=
  match v with
  | some (.num q) => decide (alpha < q)
  | _ => false

/-- The 5-tuple returned by the scipy linear-regression routine, in scipy's
order: slope, intercept, r value, p value, standard error. -/
structure LinRegResult where
  slope : ℚ
  intercept : ℚ
  rvalue : ℚ
  pvalue : ℚ
  stderr : ℚ
  deriving DecidableEq

/-- The numeric statistics collaborator (the scipy routines imported at
analysis.py lines 25-26), abstracted as pure oracles exactly as the spec
prescribes: "given N+ numeric sequences, return (statistic, p_value)". -/
structure SciPy where
  shapiro : Vec → ℚ × ℚ
  kstest : Vec → String → List ℚ → ℚ × ℚ
  ttest_1samp : Vec → ℚ → ℚ × ℚ
  ttest_ind : Vec → Vec → Bool → ℚ × ℚ
  f_oneway : List Vec → ℚ × ℚ
  kruskal : List Vec → ℚ × ℚ
  bartlett : List Vec → ℚ × ℚ
  levene : List Vec → ℚ × ℚ
  linregress : Vec → Vec → LinRegResult

/-- Re-passing a cleaned item as a constructor argument (used when a test
invokes another test on `*self._data`). -/
def CleanItem.toArg : CleanItem → TInput
  | .num q => .scalar (some q)
  | .vec v => .vec v

/-- Python argument unpacking `*self._data`: unpacking the cleaned list
passes its items; unpacking a single Vector passes its float entries one by
one as scalars (a cleaned vector has no `none` entries); unpacking a single
float raises TypeError. -/
def TestData.unpackArgs : TestData → Except PyErr (List TInput)
  | .items l => .ok (l.map CleanItem.toArg)
  | .one (.vec v) => .ok (v.map TInput.scalar)
  | .one (.num _) => .error .typeError

/-- Passing unpacked arguments to a scipy group routine: every argument must
be a sequence; a scalar argument makes the routine raise. -/
def argsAsVecs : List TInput → Except PyErr (List Vec)
  | [] => .ok []
  | .vec v :: rest => (argsAsVecs rest).map (fun l => v :: l)
  | .raw d :: rest => (argsAsVecs rest).map (fun l => d :: l)
  | .scalar _ :: _ => .error PyErr.typeError

/-- The members of a cleaned group as sequences for per-member scipy calls;
a non-sequence member makes the scipy call raise. -/
def itemsAsVecs : List CleanItem → Option (List Vec)
  | [] => some []
  | .vec v :: rest => (itemsAsVecs rest).map (fun l => v :: l)
  | .num _ :: _ => none

/-- `NormTest.run` (lines 251-264): a single sample gets one Shapiro-Wilk
call; a group gets one call per member, then reports the minimum p-value
(`min(p_value)` raises ValueError on an empty group) together with the W
value at the first index attaining it (`p_value.index(min_p)`).  Applying
shapiro to a non-sequence raises. -/
def NormTest.run (S : SciPy) (data : TestData) : Except PyErr Results :=
  match data with
  | .one (.vec v) =>
    let wp := S.shapiro v
    .ok [(.s "statistic", .num wp.1), (.s "p_value", .num wp.2)]
  | .one (.num _) => .error .typeError
  | .items l =>
    match itemsAsVecs l with
    | none => .error .typeError
    | some vs =>
      let ws := vs.map (fun v => (S.shapiro v).1)
      let ps := vs.map (fun v => (S.shapiro v).2)
      match ps.min? with
      | none => .error .valueError
      | some minp =>
        .ok [(.s "statistic", .num (ws.getD (ps.indexOf minp) 0)), (.s "p_value", .num minp)]

/-- `NormTest` construction (`Test.__init__` then `run`; display only
renders). -/
def NormTest.construct (S : SciPy) (args : List TInput) : Except PyErr Results := do
  let data ← Test.init 2 args
  NormTest.run S data

/-- `KSTest.run` (lines 280-285): one kstest call on the single sample
against the named distribution with the optional parameters. -/
def KSTest.run (S : SciPy) (dist : String) (parms : List ℚ) (data : TestData) :
    Except PyErr Results :=
  match data with
  | .one (.vec v) =>
    let dp := S.kstest v dist parms
    .ok [(.s "statistic", .num dp.1), (.s "p_value", .num dp.2)]
  | _ => .error .typeError

/-- `EqualVariance.run` (lines 451-460): the guard
`if len(self._data) < self._min_size: pass` has no effect; then
`NormTest(*self._data, ...)` is constructed and its p-value compared with
alpha — Bartlett on the group when it exceeds alpha, Levene otherwise, with
the matching discriminator tag stored under `test`. -/
def EqualVariance.run (S : SciPy) (alpha : ℚ) (data : TestData) : Except PyErr Results := do
  let args ← data.unpackArgs
  let nt ← NormTest.construct S args
  let gvecs ← argsAsVecs args
  if rvalGT (Test.p_value nt) alpha then
    let sp := S.bartlett gvecs
    .ok [(.s "p_value", .num sp.2), (.s "statistic", .num sp.1), (.s "test", .str "Bartlett")]
  else
    let sp := S.levene gvecs
    .ok [(.s "p_value", .num sp.2), (.s "statistic", .num sp.1), (.s "test", .str "Levene")]

/-- `EqualVariance` construction: `Test.__init__` (min size 2) then `run`. -/
def EqualVariance.construct (S : SciPy) (alpha : ℚ) (args : List TInput) :
    Except PyErr Results := do
  let data ← Test.init 2 args
  EqualVariance.run S alpha data

/-- Python truthiness of `self._mu` at line 310: `if self._mu:` is false both
for `None` and for `0.0`. -/
def muTruthy : Option ℚ → Bool
  | some m => decide (m ≠ 0)
  | none => false

/-- `TTest.run` (lines 309-320): a truthy `_mu` selects the one-sample test;
otherwise `EqualVariance(*self._data, ...)` decides between the pooled and
the Welch two-sample test.  `ttest_ind(*self._data, ...)` needs the unpacked
data to be exactly two sequences. -/
def TTest.run (S : SciPy) (alpha : ℚ) (mu : Option ℚ) (data : TestData) :
    Except PyErr Results :=
  if muTruthy mu then
    match data with
    | .one (.vec v) =>
      let tp := S.ttest_1samp v (mu.getD 0)
      .ok [(.s "p_value", .num tp.2), (.s "t_value", .num tp.1), (.s "test", .str "1_sample")]
    | _ => .error .typeError
  else do
    let args ← data.unpackArgs
    let ev ← EqualVariance.construct S alpha args
    let vecs ← argsAsVecs args
    match vecs with
    | [a, b] =>
      if rvalGT (Test.p_value ev) alpha then
        let tp := S.ttest_ind a b true
        .ok [(.s "p_value", .num tp.2), (.s "t_value", .num tp.1), (.s "test", .str "t_test")]
      else
        let tp := S.ttest_ind a b false
        .ok [(.s "p_value", .num tp.2), (.s "t_value", .num tp.1), (.s "test", .str "welch_t")]
    | _ => .error .typeError

/-- The second constructor argument of `TTest`: a non-iterable comparison
value (`none` when `float()` would fail on it) or a second sample. -/
inductive YInput where
  | scal (x : Option ℚ)
  | samp (v : Vec)
  deriving DecidableEq

/-- `TTest.__init__` (lines 301-307) followed by `run`: a non-iterable
`ydata` is coerced with `float` (a coercion failure propagates) and stored as
`_mu`; in both branches only `xdata` is handed to `Test.__init__` — for an
iterable `ydata` the else-branch discards it entirely. -/
def TTest.construct (S : SciPy) (x : TInput) (y : YInput) (alpha : ℚ) :
    Except PyErr Results := do
  let mu : Option ℚ ←
    match y with
    | .scal none => .error PyErr.valueError
    | .scal (some m) => .ok (some m)
    | .samp _ => .ok none
  let data ← Test.init 2 [x]
  TTest.run S alpha mu data

/-- `Anova.run` (lines 415-417): `f_oneway(*self.data)`, storing `p_value`
and `f_value` (and no `statistic` key). -/
def Anova.run (S : SciPy) (data : TestData) : Except PyErr Results := do
  let args ← data.unpackArgs
  let vecs ← argsAsVecs args
  let fp := S.f_oneway vecs
  .ok [(.s "p_value", .num fp.2), (.s "f_value", .num fp.1)]

/-- `Kruskal.run` (lines 433-435): `kruskal(*self.data)`, storing `p_value`
and `h_value` (and no `statistic` key). -/
def Kruskal.run (S : SciPy) (data : TestData) : Except PyErr Results := do
  let args ← data.unpackArgs
  let vecs ← argsAsVecs args
  let hp := S.kruskal vecs
  .ok [(.s "p_value", .num hp.2), (.s "h_value", .num hp.1)]

/-- Builds the `LinearRegression.run` results dict (lines 349-354) from the
count and the scipy 5-tuple, with the source's naming: the third tuple
component (scipy's r value) is stored under `r2`. -/
def LinearRegression.mkResults (count : Nat) (r : LinRegResult) : Results :=
  [(.s "count", .num count), (.s "slope", .num r.slope), (.s "intercept", .num r.intercept),
   (.s "r2", .num r.rvalue), (.s "std_err", .num r.stderr), (.s "p_value", .num r.pvalue)]

/-- `LinearRegression` pipeline: `Comparison.data_prep` with min size 3, then
`run` (line 347), which calls `linregress(self.xdata, self.xdata)` — the
x data twice. -/
def LinearRegression.results (S : SciPy) (x y : Vec) : Results :=
  let p := Comparison.data_prep 3 x y
  LinearRegression.mkResults p.1.length (S.linregress p.1 p.1)

/-- Follows the spec's words (the round-trip claim): the results a
`LinearRegression` would populate from the scipy routine applied to the
cleaned (x, y) pair. -/
def LinearRegression.results_spec (S : SciPy) (x y : Vec) : Results :=
  let p := Comparison.data_prep 3 x y
  LinearRegression.mkResults p.1.length (S.linregress p.1 p.2)

/-- Rendering of a possibly-missing result value in `Test.output`; stands in
for the 4-decimal float formatting `"{:.4f}".format(...)`, whose exact digit
string is irrelevant to the hypothesis-selection logic. -/
def fmtVal : Option RVal → String
  | some (.num q) => toString q
  | some (.str t) => t
  | none => "nan"

/-- `Test.output` (lines 188-202), as the list of joined lines: name,
underline, statistic line, p-value line, and — chosen at output time — the
null-hypothesis string when `self.p_value > self._alpha` and the
alternate-hypothesis string otherwise. -/
def Test.output (name statName h0 ha : String) (alpha : ℚ) (r : Results) : List String :=
  [" ",
   name,
   String.mk (List.replicate name.length '-'),
   " ",
   statName ++ " = " ++ fmtVal (Test.statistic r),
   "p value = " ++ fmtVal (Test.p_value r),
   " ",
   if rvalGT (Test.p_value r) alpha then h0 else ha,
   " "]

/-- A member of a group handed to `GroupStatistics`: a plain sequence or an
already-built Vector. -/
inductive GMember where
  | raw (d : Vec)
  | vec (v : Vec)
  deriving DecidableEq

/-- The `len()` of a group member. -/
def GMember.len : GMember → Nat
  | .raw d => d.length
  | .vec v => v.length

/-- `GroupStatistics.data_prep` (lines 558-569) with the Python local `v` as
explicit fold state: empty members are skipped; a non-Vector member is
converted (`v = Vector(d)`); an already-Vector member is NOT converted, so
the subsequent `len(v)` reads the stale local — an UnboundLocalError when no
non-Vector member was converted before, and otherwise the stale vector is
the one size-checked and stored (NaN-dropped) under the current label.
`_min_size` is 1. -/
def gsPrep {α : Type} (v? : Option Vec) : List (α × GMember) → Except PyErr (List (α × Vec))
  | [] => .ok []
  | (i, d) :: rest =>
    if d.len = 0 then gsPrep v? rest
    else
      let v1 : Option Vec := match d with | .raw dd => some (Vector dd) | .vec _ => v?
      match v1 with
      | none => .error .unboundLocal
      | some v =>
        if v.length < 1 then gsPrep (some v) rest
        else do
          let tail ← gsPrep (some v) rest
          .ok ((i, drop_nan v) :: tail)

/-- `GroupStatistics.data_prep` entry point: the local `v` starts unbound. -/
def GroupStatistics.data_prep {α : Type} (data : List (α × GMember)) :
    Except PyErr (List (α × Vec)) :=
  gsPrep none data

/-- The failure channel of `GroupStatistics.run` (lines 579-594): the numpy
reductions `amax`/`amin` raise ValueError on an empty vector; otherwise the
run only fills the results list (which `analyze` never reads). -/
def GroupStatistics.runCheck {α : Type} (rows : List (α × Vec)) : Except PyErr Unit :=
  if rows.all (fun row => !row.2.isEmpty) then .ok () else .error .valueError

/-- Which test family the `analyze` group branch would finally invoke. -/
inductive AnalyzeAction where
  | tTest
  | anova
  | kruskal
  deriving DecidableEq

/-- A group member as a `GroupStatistics` input; `len()` of a scalar raises. -/
def TInput.toGMember : TInput → Except PyErr GMember
  | .raw d => .ok (.raw d)
  | .vec v => .ok (.vec v)
  | .scalar _ => .error .typeError

/-- Dict lookup `results[0]` as written at analyze lines 692 and 696: a
missing key raises KeyError. -/
def resultsItem (r : Results) (k : RKey) : Except PyErr RVal :=
  match r.get k with
  | some v => .ok v
  | none => .error .keyError

/-- The group branch of `analyze` (lines 670-706), for an unlabeled group
(`groups=None`): the box plot only renders; `GroupStatistics(xdata, groups)`
labels the members 1..n and runs; then `p = EqualVariance(*xdata).results[0]`
and `NormTest(*xdata, ...).results[0]` read the integer key 0 from the
string-keyed results dicts; the final decision runs TTest on 2 groups and
ANOVA or Kruskal-Wallis otherwise, by the two p-values. -/
def analyze_group (S : SciPy) (alpha : ℚ) (xs : List TInput) :
    Except PyErr AnalyzeAction := do
  let members ← xs.mapM TInput.toGMember
  let gdata := members.enum.map (fun e => (e.1 + 1, e.2))
  let rows ← GroupStatistics.data_prep gdata
  GroupStatistics.runCheck rows
  let ev ← EqualVariance.construct S alpha xs
  let p ← resultsItem ev (.i 0)
  let nt ← NormTest.construct S xs
  let np ← resultsItem nt (.i 0)
  if rvalGT (some np) alpha && rvalGT (some p) alpha then
    if xs.length = 2 then .ok .tTest else .ok .anova
  else
    if xs.length = 2 then .ok .tTest else .ok .kruskal

/-- A concrete instance of the numeric collaborator, used for closed
counterexamples and witnesses: shapiro reports the sample length as both
outputs, and linregress reports the first entry of its second argument as
the slope — an oracle that can tell its two arguments apart. -/
def S0 : SciPy where
  shapiro := fun v => ((v.length : ℚ), (v.length : ℚ))
  kstest := fun _ _ _ => (7, 7)
  ttest_1samp := fun _ _ => (3, 3)
  ttest_ind := fun _ _ _ => (4, 4)
  f_oneway := fun _ => (5, 5)
  kruskal := fun _ => (6, 6)
  bartlett := fun _ => (1, 1)
  levene := fun _ => (2, 2)
  linregress := fun _ b => ⟨(b.headD none).getD 0, 0, 0, 0, 0⟩

/-- Concrete sample fixtures. -/
def X4 : Vec := [some 1, some 2, some 3, some 4]

/-- The spec scenario response y = 3 * x on `X4`. -/
def Y4 : Vec := [some 3, some 6, some 9, some 12]

/-- A second disjoint 4-element sample. -/
def W4 : Vec := [some 5, some 6, some 7, some 8]

/-- A third 4-element sample. -/
def Z4 : Vec := [some 9, some 10, some 11, some 12]

example : Test.data_prep 2 [TInput.raw [some 1, some 2]] = [] := by decide

example :
    Test.data_prep 2 [TInput.raw [some 1, some 2, some 3]] =
      [CleanItem.vec [some 1, some 2, some 3]] := by decide

example :
    Comparison.data_prep 3 [some 1] [some 1, some 2] = ([some 1], [some 1, some 2]) := by
  decide

/-- C1: the claim fails on the code.  `LinearRegression.run` (line 347) calls
`linregress(self.xdata, self.xdata)` — the x data twice — so the populated
results are NOT the scipy outputs for the (x, y) pair.  Evaluated under an
oracle whose slope output is the first entry of its second argument, on a
clean equal-length pair (x = [1,2,3,4], y = 3x): the code stores the slope
of the degenerate (x, x) call (1), while the scipy round-trip on (x, y)
gives 3. -/
theorem LinearRegression_results_ignore_ydata :
    (LinearRegression.results S0 X4 Y4).get (.s "slope") = some (.num 1) ∧
      (LinearRegression.results_spec S0 X4 Y4).get (.s "slope") = some (.num 3) := by
  decide

/-- C4: the claim fails on the code.  `Test.data_prep` (lines 173-186) never
raises: a sample that is empty after NaN-dropping, or whose cleaned length is
at most `min_size`, is silently skipped with `continue` (the module defines
neither EmptyVectorError nor MinimumSizeError, though the repository's own
tests import and assert them).  Evaluated at the spec's scenario inputs with
min size 2: cleaning [1,2] silently drops the sample instead of raising
MinimumSizeError, an all-NaN sample is silently dropped instead of raising
EmptyVectorError, and [1,2,3] is kept with length 3. -/
theorem Test_data_prep_silently_drops :
    Test.data_prep 2 [TInput.raw [some 1, some 2]] = [] ∧
      Test.data_prep 2 [TInput.raw [none, none]] = [] ∧
      Test.data_prep 2 [TInput.raw [some 1, some 2, some 3]] =
        [CleanItem.vec [some 1, some 2, some 3]] := by
  decide

/-- C5: the claim fails on the code.  `Comparison.data_prep` (lines 212-213)
hits `if len(xdata) != len(ydata): pass` for two samples of different
lengths: it raises nothing (no UnequalVectorLengthError exists in the
module, though the repository's own test_358 asserts it) and returns the
unequal pair unchanged and uncleaned. -/
theorem Comparison_data_prep_returns_unequal_pair :
    Comparison.data_prep 3 X4 [some 1, some 2, some 3] =
      (X4, [some 1, some 2, some 3]) := by
  decide

/-- Helper: a tuple of unpacked vector entries is never a group — a
non-empty list of scalars fails the all-iterable test, and the empty tuple
fails the non-emptiness test. -/
theorem is_group_scalars (v : Vec) : is_group (v.map TInput.scalar) = false := by
  cases v with
  | nil => rfl
  | cons a t => simp [is_group, TInput.is_iterable]

/-- Helper: constructing `EqualVariance` on unpacked vector entries (scalar
arguments) raises TypeError in `Test.__init__`: the arguments are not a
group, and `self.data_prep(*args)` cannot accept them. -/
theorem EqualVariance_construct_scalars (S : SciPy) (alpha : ℚ) (v : Vec) :
    EqualVariance.construct S alpha (v.map TInput.scalar) = .error .typeError := by
  simp [EqualVariance.construct, Test.init, is_group_scalars, Bind.bind, Except.bind]

/-- C3: the claim fails on the code.  `TTest.__init__` (line 307) passes only
`xdata` on to `Test.__init__` when `ydata` is iterable — the second sample is
discarded — and `TTest.run` (line 310) tests `if self._mu:`, which is false
for the value 0.0 as well as for None.  Hence: for any pair of samples, run
reaches `EqualVariance(*self._data, ...)` with the single cleaned x vector
unpacked element-by-element, which raises TypeError — no two-sample t test
on the pair, pooled or Welch, is ever computed; and for the scalar
comparison value 0 the same crashing two-sample branch is taken instead of
the claimed one-sample t-test without EqualVariance. -/
theorem TTest_two_sample_and_zero_mu_crash (S : SciPy) (x y : Vec) (alpha : ℚ) :
    TTest.construct S (TInput.vec x) (YInput.samp y) alpha = .error .typeError ∧
      TTest.construct S (TInput.vec x) (YInput.scal (some 0)) alpha = .error .typeError := by
  have key : ∀ mu : Option ℚ, muTruthy mu = false →
      TTest.run S alpha mu (Test.unwrap (Test.data_prep 2 [TInput.vec x])) =
        .error .typeError := by
    intro mu hmu
    by_cases hc : ((drop_nan x).isEmptyV || decide ((drop_nan x).length ≤ 2)) = true
    · have hdp : Test.data_prep 2 [TInput.vec x] = [] := by
        simp only [Test.data_prep]
        rw [if_pos hc]
      rw [hdp]
      show TTest.run S alpha mu (TestData.items []) = .error .typeError
      have h0 : EqualVariance.construct S alpha (([] : Vec).map TInput.scalar) =
          .error .typeError := EqualVariance_construct_scalars S alpha []
      simp only [List.map_nil] at h0
      simp [TTest.run, hmu, TestData.unpackArgs, Bind.bind, Except.bind, h0]
    · have hdp : Test.data_prep 2 [TInput.vec x] = [CleanItem.vec (drop_nan x)] := by
        simp only [Test.data_prep]
        rw [if_neg hc]
      rw [hdp]
      show TTest.run S alpha mu (TestData.one (CleanItem.vec (drop_nan x))) =
        .error .typeError
      simp [TTest.run, hmu, TestData.unpackArgs, Bind.bind, Except.bind,
        EqualVariance_construct_scalars S alpha (drop_nan x)]
  constructor
  · show (Test.init 2 [TInput.vec x] >>= TTest.run S alpha none) = .error .typeError
    have hinit : Test.init 2 [TInput.vec x] =
        .ok (Test.unwrap (Test.data_prep 2 [TInput.vec x])) := rfl
    rw [hinit]
    exact key none rfl
  · show (Test.init 2 [TInput.vec x] >>= TTest.run S alpha (some 0)) = .error .typeError
    have hinit : Test.init 2 [TInput.vec x] =
        .ok (Test.unwrap (Test.data_prep 2 [TInput.vec x])) := rfl
    rw [hinit]
    exact key (some 0) (by simp [muTruthy])

/-- A concrete three-group input for the `analyze` dispatcher: three plain
4-element numeric samples. -/
def G3args : List TInput := [TInput.raw X4, TInput.raw W4, TInput.raw Z4]

/-- Helper: whatever `EqualVariance.run` successfully returns is one of the
two string-keyed result dicts, so the integer key 0 is absent from it. -/
theorem EqualVariance_run_ok_no_int_key (S : SciPy) (alpha : ℚ) (data : TestData)
    (r : Results) (h : EqualVariance.run S alpha data = .ok r) :
    r.get (RKey.i 0) = none := by
  unfold EqualVariance.run at h
  simp only [Bind.bind, Except.bind] at h
  split at h
  · exact Except.noConfusion h
  · split at h
    · exact Except.noConfusion h
    · split at h
      · exact Except.noConfusion h
      · split at h
        · cases h
          rfl
        · cases h
          rfl

/-- Helper: on the concrete three-group input, `EqualVariance` constructs
successfully for every oracle (the branch only decides Bartlett vs Levene). -/
theorem EqualVariance_construct_G3_ok (S : SciPy) (alpha : ℚ) :
    ∃ r, EqualVariance.construct S alpha G3args = .ok r := by
  show ∃ r, EqualVariance.run S alpha
      (TestData.items [CleanItem.vec X4, CleanItem.vec W4, CleanItem.vec Z4]) = .ok r
  obtain ⟨nt, hnt⟩ : ∃ nt, NormTest.construct S
      [TInput.vec X4, TInput.vec W4, TInput.vec Z4] = .ok nt := ⟨_, rfl⟩
  unfold EqualVariance.run
  simp only [Bind.bind, Except.bind]
  simp only [show (TestData.items
      [CleanItem.vec X4, CleanItem.vec W4, CleanItem.vec Z4]).unpackArgs =
      Except.ok [TInput.vec X4, TInput.vec W4, TInput.vec Z4] from rfl, hnt,
    show argsAsVecs [TInput.vec X4, TInput.vec W4, TInput.vec Z4] =
      Except.ok [X4, W4, Z4] from rfl]
  split
  · exact ⟨_, rfl⟩
  · exact ⟨_, rfl⟩

/-- C2: the claim fails on the code.  The group branch of `analyze` evaluates
`p = EqualVariance(*xdata).results[0]` (line 692), but `results` is the
string-keyed dict the run stored — looking up the integer key 0 raises
KeyError for every oracle, so the dispatch the claim (and the code's own
comment) describes — ANOVA or Kruskal-Wallis for 3 or more groups, TTest for
2 — is never reached.  Evaluated on a clean three-group input. -/
theorem analyze_group_always_keyerror (S : SciPy) (alpha : ℚ) :
    analyze_group S alpha G3args = .error .keyError := by
  obtain ⟨r, hok⟩ := EqualVariance_construct_G3_ok S alpha
  have hrun : EqualVariance.run S alpha
      (TestData.items [CleanItem.vec X4, CleanItem.vec W4, CleanItem.vec Z4]) = .ok r := hok
  have hkey : r.get (RKey.i 0) = none :=
    EqualVariance_run_ok_no_int_key S alpha _ r hrun
  have step : analyze_group S alpha G3args =
      (EqualVariance.construct S alpha G3args).bind (fun ev =>
        (resultsItem ev (RKey.i 0)).bind (fun p =>
          (NormTest.construct S G3args).bind (fun nt =>
            (resultsItem nt (RKey.i 0)).bind (fun np =>
              if rvalGT (some np) alpha && rvalGT (some p) alpha then
                if G3args.length = 2 then .ok .tTest else .ok .anova
              else
                if G3args.length = 2 then .ok .tTest else .ok .kruskal)))) := rfl
  rw [step, hok]
  simp only [Except.bind, resultsItem, hkey]

/-- Helper: unpacking a cleaned group of vectors yields the vectors as
arguments. -/
theorem unpack_items_vecs (vs : List Vec) :
    (TestData.items (vs.map CleanItem.vec)).unpackArgs = .ok (vs.map TInput.vec) := by
  simp [TestData.unpackArgs, List.map_map, Function.comp, CleanItem.toArg]

/-- Helper: vector arguments pass unchanged into a scipy group routine. -/
theorem argsAsVecs_vecs (vs : List Vec) : argsAsVecs (vs.map TInput.vec) = .ok vs := by
  induction vs with
  | nil => rfl
  | cons v t ih => simp [argsAsVecs, ih, Except.map]

/-- C6 counterexample: after a successful `Anova.run` the results dict has a
`p_value` key but NO `statistic` key — the f statistic is stored under
`f_value` only — refuting the claim that every one of the six hypothesis
tests stores both keys. -/
theorem Anova_results_lack_statistic_key :
    Anova.run S0 (TestData.items [CleanItem.vec X4, CleanItem.vec W4]) =
      .ok [(RKey.s "p_value", RVal.num 5), (RKey.s "f_value", RVal.num 5)] ∧
    Results.get [(RKey.s "p_value", RVal.num 5), (RKey.s "f_value", RVal.num 5)]
        (RKey.s "statistic") = none ∧
    (Results.get [(RKey.s "p_value", RVal.num 5), (RKey.s "f_value", RVal.num 5)]
        (RKey.s "p_value")).isSome = true := by
  refine ⟨rfl, rfl, rfl⟩

/-- C6 as amended: after a successful run, `p_value` is always present;
`statistic` is present for NormTest, KSTest and EqualVariance, while TTest,
Anova and Kruskal store their statistic under the test-specific keys
`t_value`, `f_value` and `h_value` and have NO `statistic` key (so the
`statistic` accessor yields NaN for them); and the numeric accessors are
total lookups — a missing key surfaces as NaN (`none`), never as an
exception. -/
theorem hypothesis_test_result_keys (S : SciPy) (alpha : ℚ) (v : Vec) (vs : List Vec)
    (dist : String) (parms : List ℚ) (r : Results) :
    ((NormTest.run S (TestData.one (CleanItem.vec v))).map
        (fun res => ((Test.p_value res).isSome, (Test.statistic res).isSome)) =
      .ok (true, true)) ∧
    ((KSTest.run S dist parms (TestData.one (CleanItem.vec v))).map
        (fun res => ((Test.p_value res).isSome, (Test.statistic res).isSome)) =
      .ok (true, true)) ∧
    ((EqualVariance.run S alpha (TestData.items [CleanItem.vec X4, CleanItem.vec W4])).map
        (fun res => ((Test.p_value res).isSome, (Test.statistic res).isSome,
          (res.get (.s "test")).isSome)) = .ok (true, true, true)) ∧
    ((TTest.run S alpha (some 1) (TestData.one (CleanItem.vec v))).map
        (fun res => ((Test.p_value res).isSome, Test.statistic res,
          (res.get (.s "t_value")).isSome)) = .ok (true, none, true)) ∧
    ((Anova.run S (TestData.items (vs.map CleanItem.vec))).map
        (fun res => ((Test.p_value res).isSome, Test.statistic res,
          (res.get (.s "f_value")).isSome)) = .ok (true, none, true)) ∧
    ((Kruskal.run S (TestData.items (vs.map CleanItem.vec))).map
        (fun res => ((Test.p_value res).isSome, Test.statistic res,
          (res.get (.s "h_value")).isSome)) = .ok (true, none, true)) ∧
    Test.statistic r = r.get (.s "statistic") ∧
    Test.p_value r = r.get (.s "p_value") := by
  refine ⟨rfl, rfl, ?_, rfl, ?_, ?_, rfl, rfl⟩
  · obtain ⟨nt, hnt⟩ : ∃ nt, NormTest.construct S [TInput.vec X4, TInput.vec W4] =
        .ok nt := ⟨_, rfl⟩
    unfold EqualVariance.run
    simp only [Bind.bind, Except.bind]
    simp only [show (TestData.items [CleanItem.vec X4, CleanItem.vec W4]).unpackArgs =
        Except.ok [TInput.vec X4, TInput.vec W4] from rfl, hnt,
      show argsAsVecs [TInput.vec X4, TInput.vec W4] = Except.ok [X4, W4] from rfl]
    split
    · rfl
    · rfl
  · unfold Anova.run
    simp only [Bind.bind, Except.bind]
    rw [unpack_items_vecs]
    simp only []
    rw [argsAsVecs_vecs]
    rfl
  · unfold Kruskal.run
    simp only [Bind.bind, Except.bind]
    rw [unpack_items_vecs]
    simp only []
    rw [argsAsVecs_vecs]
    rfl

/-- C9: confirmed.  The generic `Test.output` (line 200) selects, at output
time, the null-hypothesis string exactly when `results['p_value']` exceeds
alpha and the alternate-hypothesis string otherwise: line 7 of the rendered
block is the selected hypothesis, the comparison holds exactly when the
stored p-value is a number exceeding alpha, and a missing p-value (NaN)
selects the alternate text.  Nothing about the selection is stored in the
results mapping — `output` recomputes it from `results` and `alpha` on every
call. -/
theorem Test_output_selects_hypothesis (name statName h0 ha : String) (alpha : ℚ)
    (r : Results) :
    (Test.output name statName h0 ha alpha r).getD 7 " " =
      (if rvalGT (Test.p_value r) alpha then h0 else ha) ∧
    (rvalGT (Test.p_value r) alpha = true ↔
      ∃ q, Test.p_value r = some (RVal.num q) ∧ alpha < q) := by
  constructor
  · rfl
  · cases h : Test.p_value r with
    | none => simp [rvalGT, h]
    | some w =>
      cases w with
      | num q => simp [rvalGT, h]
      | str t => simp [rvalGT, h]

/-- Helper: a non-empty list of vector arguments is a group. -/
theorem is_group_vecs (vs : List Vec) (h : vs ≠ []) :
    is_group (vs.map TInput.vec) = true := by
  cases vs with
  | nil => exact absurd rfl h
  | cons v t =>
    simp only [is_group, List.map_cons, List.isEmpty_cons, Bool.not_false, Bool.true_and,
      List.all_cons, TInput.is_iterable, Bool.true_and, List.all_eq_true]
    intro x hx
    obtain ⟨w, _, rfl⟩ := List.mem_map.mp hx
    rfl

/-- Helper: `Test.data_prep` keeps every vector member whose cleaned length
exceeds the minimum size, replacing it by its NaN-dropped form. -/
theorem data_prep_keeps_good_vecs (vs : List Vec)
    (hs : ∀ v ∈ vs, 2 < (drop_nan v).length) :
    Test.data_prep 2 (vs.map TInput.vec) = vs.map (fun v => CleanItem.vec (drop_nan v)) := by
  induction vs with
  | nil => rfl
  | cons v t ih =>
    have h1 := hs v (by simp)
    have hne : drop_nan v ≠ [] := by
      intro hcon
      rw [hcon] at h1
      simp at h1
    have hcond : ((drop_nan v).isEmptyV || decide ((drop_nan v).length ≤ 2)) = false := by
      simp only [Bool.or_eq_false_iff, decide_eq_false_iff_not, not_le, Vec.isEmptyV]
      exact ⟨by simp [List.isEmpty_iff, hne], h1⟩
    simp only [List.map_cons, Test.data_prep, hcond, Bool.false_eq_true, if_false]
    rw [ih (fun w hw => hs w (by simp [hw]))]

/-- Helper: the unwrap step leaves a list of two or more cleaned members as
a group. -/
theorem unwrap_ge2 (l : List CleanItem) (h : 2 ≤ l.length) : Test.unwrap l = .items l := by
  match l with
  | [] => simp at h
  | [c] => simp at h
  | a :: b :: t => rfl

/-- Helper: a cleaned group of vectors passes whole into a per-member scipy
loop. -/
theorem itemsAsVecs_map (vs : List Vec) :
    itemsAsVecs (vs.map CleanItem.vec) = some vs := by
  induction vs with
  | nil => rfl
  | cons v t ih => simp [itemsAsVecs, ih, Option.map]

/-- Helper: a non-empty list of rationals has a minimum. -/
theorem min?_isSome_of_ne_nil (ps : List ℚ) (h : ps ≠ []) : ∃ m, ps.min? = some m := by
  cases hm : ps.min? with
  | none => exact absurd (List.min?_eq_none_iff.mp hm) h
  | some m => exact ⟨m, rfl⟩

/-- Helper: the minimum of a rational list is a member and a lower bound. -/
theorem min?_spec (ps : List ℚ) (m : ℚ) (h : ps.min? = some m) :
    m ∈ ps ∧ ∀ b ∈ ps, m ≤ b := by
  refine ⟨List.min?_mem (fun a b => min_choice a b) h, ?_⟩
  exact (List.le_min?_iff (fun a b c => le_min_iff) h).mp le_rfl

/-- C7: confirmed.  `EqualVariance.run` delegates to exactly one of Bartlett
and Levene, storing the matching `test` tag: Bartlett exactly when the
p-value of `NormTest(*self._data, ...)` — the minimum Shapiro-Wilk p-value
across the (re-cleaned) group — exceeds alpha, and Levene otherwise.  The
hypotheses say the group has at least two members, each surviving the
NormTest re-cleaning (cleaned length above the minimum size 2). -/
theorem EqualVariance_branches_on_group_normality (S : SciPy) (alpha : ℚ) (vs : List Vec)
    (h2 : 2 ≤ vs.length) (hs : ∀ v ∈ vs, 2 < (drop_nan v).length) :
    ∃ m, (vs.map (fun v => (S.shapiro (drop_nan v)).2)).min? = some m ∧
      EqualVariance.run S alpha (TestData.items (vs.map CleanItem.vec)) =
        (if alpha < m then
          .ok [(.s "p_value", .num (S.bartlett vs).2),
               (.s "statistic", .num (S.bartlett vs).1), (.s "test", .str "Bartlett")]
        else
          .ok [(.s "p_value", .num (S.levene vs).2),
               (.s "statistic", .num (S.levene vs).1), (.s "test", .str "Levene")]) := by
  have hvne : vs ≠ [] := by
    intro hcon
    rw [hcon] at h2
    simp at h2
  obtain ⟨m, hm⟩ := min?_isSome_of_ne_nil (vs.map (fun v => (S.shapiro (drop_nan v)).2))
    (by simp [hvne])
  refine ⟨m, hm, ?_⟩
  have hinit : Test.init 2 (vs.map TInput.vec) =
      .ok (TestData.items (vs.map (fun v => CleanItem.vec (drop_nan v)))) := by
    unfold Test.init
    rw [is_group_vecs vs hvne]
    rw [if_pos rfl]
    rw [data_prep_keeps_good_vecs vs hs]
    rw [unwrap_ge2]
    simp [h2]
  have hnt : NormTest.construct S (vs.map TInput.vec) =
      .ok [(.s "statistic", .num ((vs.map (fun v => (S.shapiro (drop_nan v)).1)).getD
              ((vs.map (fun v => (S.shapiro (drop_nan v)).2)).indexOf m) 0)),
           (.s "p_value", .num m)] := by
    unfold NormTest.construct
    simp only [Bind.bind, Except.bind]
    rw [hinit]
    show NormTest.run S (TestData.items (vs.map (fun v => CleanItem.vec (drop_nan v)))) = _
    have hiv : itemsAsVecs (vs.map (fun v => CleanItem.vec (drop_nan v))) =
        some (vs.map drop_nan) := by
      rw [show vs.map (fun v => CleanItem.vec (drop_nan v)) =
        (vs.map drop_nan).map CleanItem.vec by simp [List.map_map, Function.comp]]
      exact itemsAsVecs_map _
    simp only [NormTest.run]
    rw [hiv]
    simp only [List.map_map, Function.comp_def]
    rw [show ((vs.map fun v => (S.shapiro (drop_nan v)).2)).min? = some m from hm]
  have hp : Test.p_value [(RKey.s "statistic",
      RVal.num ((vs.map (fun v => (S.shapiro (drop_nan v)).1)).getD
        ((vs.map (fun v => (S.shapiro (drop_nan v)).2)).indexOf m) 0)),
      (RKey.s "p_value", RVal.num m)] = some (RVal.num m) := rfl
  unfold EqualVariance.run
  simp only [Bind.bind, Except.bind]
  rw [unpack_items_vecs]
  simp only []
  rw [hnt]
  simp only []
  rw [argsAsVecs_vecs]
  simp only []
  rw [hp]
  show (if rvalGT (some (RVal.num m)) alpha = true then _ else _) = _
  by_cases hq : alpha < m
  · rw [if_pos (by simp [rvalGT, hq]), if_pos hq]
  · rw [if_neg (by simp [rvalGT, hq]), if_neg hq]

/-- C8: confirmed.  On a group, `NormTest.run` computes the Shapiro-Wilk test
per member and reports as representative result the minimum p-value across
the group together with the W statistic of that same worst-fitting member
(the first member attaining the minimum, per `p_value.index(min_p)`). -/
theorem NormTest_group_reports_worst_member (S : SciPy) (vs : List Vec) (h : vs ≠ []) :
    ∃ r, NormTest.run S (TestData.items (vs.map CleanItem.vec)) = .ok r ∧
      ∃ i, ∃ hi : i < vs.length,
        Test.p_value r = some (RVal.num (S.shapiro (vs.get ⟨i, hi⟩)).2) ∧
        Test.statistic r = some (RVal.num (S.shapiro (vs.get ⟨i, hi⟩)).1) ∧
        ∀ j, (hj : j < vs.length) →
          (S.shapiro (vs.get ⟨i, hi⟩)).2 ≤ (S.shapiro (vs.get ⟨j, hj⟩)).2 := by
  obtain ⟨m, hm⟩ := min?_isSome_of_ne_nil (vs.map (fun v => (S.shapiro v).2)) (by simp [h])
  obtain ⟨hmem, hlb⟩ := min?_spec _ m hm
  have hilt : (vs.map (fun v => (S.shapiro v).2)).indexOf m <
      (vs.map (fun v => (S.shapiro v).2)).length := List.indexOf_lt_length.mpr hmem
  have hi : (vs.map (fun v => (S.shapiro v).2)).indexOf m < vs.length := by
    simpa using hilt
  have hrun : NormTest.run S (TestData.items (vs.map CleanItem.vec)) =
      .ok [(.s "statistic", .num ((vs.map (fun v => (S.shapiro v).1)).getD
              ((vs.map (fun v => (S.shapiro v).2)).indexOf m) 0)),
           (.s "p_value", .num m)] := by
    simp only [NormTest.run]
    rw [itemsAsVecs_map]
    simp only [hm]
  have hgetm : (vs.map (fun v => (S.shapiro v).2)).get
      ⟨(vs.map (fun v => (S.shapiro v).2)).indexOf m, hilt⟩ = m :=
    List.indexOf_get hilt
  have hpm : m = (S.shapiro (vs.get
      ⟨(vs.map (fun v => (S.shapiro v).2)).indexOf m, hi⟩)).2 := by
    have h1 : (vs.map (fun v => (S.shapiro v).2)).get?
        ((vs.map (fun v => (S.shapiro v).2)).indexOf m) = some m := by
      rw [List.get?_eq_get hilt]
      exact congrArg some hgetm
    rw [List.get?_map, List.get?_eq_get hi, Option.map_some'] at h1
    exact (Option.some.inj h1).symm
  have hstat : (vs.map (fun v => (S.shapiro v).1)).getD
      ((vs.map (fun v => (S.shapiro v).2)).indexOf m) 0 =
      (S.shapiro (vs.get ⟨(vs.map (fun v => (S.shapiro v).2)).indexOf m, hi⟩)).1 := by
    rw [List.getD_eq_get?, List.get?_map, List.get?_eq_get hi, Option.map_some']
    rfl
  refine ⟨_, hrun, (vs.map (fun v => (S.shapiro v).2)).indexOf m, hi, ?_, ?_, ?_⟩
  · exact congrArg (fun q => some (RVal.num q)) hpm
  · exact congrArg (fun q => some (RVal.num q)) hstat
  · intro j hj
    have hmem2 : (S.shapiro (vs.get ⟨j, hj⟩)).2 ∈ vs.map (fun v => (S.shapiro v).2) := by
      have h2 : (vs.map (fun v => (S.shapiro v).2)).get ⟨j, by simpa using hj⟩ =
          (S.shapiro (vs.get ⟨j, hj⟩)).2 := List.get_map _
      rw [← h2]
      exact List.get_mem _ _ _
    have h3 := hlb _ hmem2
    rw [← hpm]
    exact h3

/-- The most recent non-empty non-Vector member of a group prefix — the
member whose conversion last assigned the Python local `v`. -/
def lastNonEmptyRaw : List GMember → Option Vec
  | [] => none
  | d :: rest =>
    match lastNonEmptyRaw rest with
    | some m => some m
    | none =>
      match d with
      | .raw dd => if dd.length = 0 then none else some dd
      | .vec _ => none

/-- The value of the Python local `v` after a prefix, given its value `v?`
before the prefix. -/
def staleVec (v? : Option Vec) (l : List GMember) : Option Vec :=
  match lastNonEmptyRaw l with
  | some m => some m
  | none => v?

/-- Helper: an already-Vector member never changes the stale local. -/
theorem staleVec_cons_vec (v? : Option Vec) (vv : Vec) (l : List GMember) :
    staleVec v? (GMember.vec vv :: l) = staleVec v? l := by
  cases h : lastNonEmptyRaw l <;> simp [staleVec, lastNonEmptyRaw, h]

/-- Helper: an empty plain member is skipped before the local is assigned. -/
theorem staleVec_cons_raw_empty (v? : Option Vec) (dd : Vec) (l : List GMember)
    (h0 : dd.length = 0) :
    staleVec v? (GMember.raw dd :: l) = staleVec v? l := by
  cases h : lastNonEmptyRaw l <;> simp [staleVec, lastNonEmptyRaw, h, h0]

/-- Helper: a non-empty plain member becomes the new value of the local. -/
theorem staleVec_cons_raw (v? : Option Vec) (dd : Vec) (l : List GMember)
    (h0 : dd.length ≠ 0) :
    staleVec v? (GMember.raw dd :: l) = staleVec (some dd) l := by
  cases h : lastNonEmptyRaw l <;> simp [staleVec, lastNonEmptyRaw, h, h0]

/-- Helper: appending a non-empty already-Vector member to a group whose
prefix cleaned successfully: the stored entry comes from the stale local
`v` — the most recent non-empty plain member (or the incoming state) — and
when the local was never assigned the step fails with UnboundLocalError. -/
theorem gsPrep_snoc_vec {α : Type} (pre : List (α × GMember)) :
    ∀ (v? : Option Vec) (rows : List (α × Vec)) (i : α) (w : Vec),
      gsPrep v? pre = .ok rows → w.length ≠ 0 →
      (∀ x, v? = some x → x.length ≠ 0) →
      gsPrep v? (pre ++ [(i, GMember.vec w)]) =
        match staleVec v? (pre.map Prod.snd) with
        | some x => .ok (rows ++ [(i, drop_nan x)])
        | none => .error PyErr.unboundLocal := by
  induction pre with
  | nil =>
    intro v? rows i w hpre hw hv
    have hrows : rows = [] := by
      have : Except.ok (ε := PyErr) ([] : List (α × Vec)) = .ok rows := hpre
      cases this
      rfl
    subst hrows
    simp only [List.nil_append, List.map_nil]
    have hsv : staleVec v? [] = v? := by simp [staleVec, lastNonEmptyRaw]
    rw [hsv]
    cases v? with
    | none => simp [gsPrep, GMember.len, hw]
    | some v =>
      have hvne := hv v rfl
      simp [gsPrep, GMember.len, hw, Nat.lt_one_iff, hvne, Bind.bind, Except.bind]
  | cons hd tl ih =>
    obtain ⟨j, d⟩ := hd
    intro v? rows i w hpre hw hv
    rw [List.cons_append]
    by_cases hd0 : d.len = 0
    · simp only [gsPrep, hd0, if_pos] at hpre ⊢
      rw [ih v? rows i w hpre hw hv]
      cases d with
      | raw dd =>
        have hdd : dd.length = 0 := hd0
        rw [List.map_cons, staleVec_cons_raw_empty v? dd _ hdd]
      | vec vv =>
        rw [List.map_cons, staleVec_cons_vec]
    · simp only [gsPrep, hd0, if_neg, if_false] at hpre ⊢
      cases d with
      | raw dd =>
        have hdd : dd.length ≠ 0 := hd0
        simp only [Vector] at hpre ⊢
        have hlt : ¬ dd.length < 1 := by omega
        simp only [hlt, if_false] at hpre ⊢
        cases hg : gsPrep (α := α) (some dd) tl with
        | error e =>
          rw [hg] at hpre
          simp only [Bind.bind, Except.bind] at hpre
          exact Except.noConfusion hpre
        | ok tail =>
          rw [hg] at hpre
          simp only [Bind.bind, Except.bind] at hpre
          cases hpre
          rw [List.map_cons, staleVec_cons_raw v? dd _ hdd]
          rw [ih (some dd) tail i w hg hw (fun x hx => by cases hx; exact hdd)]
          cases hsv : staleVec (some dd) (tl.map Prod.snd) with
          | none => simp [Bind.bind, Except.bind]
          | some x => simp [Bind.bind, Except.bind]
      | vec vv =>
        cases v? with
        | none =>
          simp only [Bind.bind, Except.bind] at hpre
          exact Except.noConfusion hpre
        | some v =>
          have hvne := hv v rfl
          have hlt : ¬ v.length < 1 := by omega
          simp only [hlt, if_false] at hpre ⊢
          cases hg : gsPrep (α := α) (some v) tl with
          | error e =>
            rw [hg] at hpre
            simp only [Bind.bind, Except.bind] at hpre
            exact Except.noConfusion hpre
          | ok tail =>
            rw [hg] at hpre
            simp only [Bind.bind, Except.bind] at hpre
            cases hpre
            rw [List.map_cons, staleVec_cons_vec]
            rw [ih (some v) tail i w hg hw hv]
            cases hsv : staleVec (some v) (tl.map Prod.snd) with
            | none => simp [Bind.bind, Except.bind]
            | some x => simp [Bind.bind, Except.bind]

/-- C10 counterexample: in the group a ↦ [1,2], b ↦ [] (a plain empty list),
c ↦ Vector [5,6], the most recent member preceding c that is not a Vector is
b, whose vector is empty — yet the code stores under c the NaN-dropped
vector built from a, [1,2], which is neither the vector built from b (it is
non-empty) nor c's own data.  So the claim's description of which vector is
stored is false at this input. -/
theorem GroupStatistics_claim_counterexample :
    GroupStatistics.data_prep
        [("a", GMember.raw [some (1 : ℚ), some 2]), ("b", GMember.raw []),
         ("c", GMember.vec [some 5, some 6])] =
      .ok [("a", [some 1, some 2]), ("c", [some 1, some 2])] ∧
    drop_nan (Vector []) = [] ∧
    ([some (1 : ℚ), some 2] : Vec) ≠ [] ∧
    ([some (1 : ℚ), some 2] : Vec) ≠ [some 5, some 6] := by
  refine ⟨rfl, rfl, by decide, by decide⟩

/-- C10 as amended: `GroupStatistics.data_prep` never converts an
already-Vector member.  If a non-empty Vector member is reached with no
preceding non-empty non-Vector member, the operation fails with an
unbound-local-variable error; otherwise the entry stored under that member's
label is the NaN-dropped vector built from the most recent preceding
NON-EMPTY non-Vector member, not the member itself. -/
theorem GroupStatistics_vector_member_stale_entry {α : Type} (pre : List (α × GMember))
    (rows : List (α × Vec)) (i : α) (w : Vec)
    (hpre : GroupStatistics.data_prep pre = .ok rows) (hw : w.length ≠ 0) :
    GroupStatistics.data_prep (pre ++ [(i, GMember.vec w)]) =
      match lastNonEmptyRaw (pre.map Prod.snd) with
      | some x => .ok (rows ++ [(i, drop_nan x)])
      | none => .error PyErr.unboundLocal := by
  have h := gsPrep_snoc_vec pre none rows i w hpre hw (fun x hx => Option.noConfusion hx)
  rw [GroupStatistics.data_prep, h]
  cases hs : lastNonEmptyRaw (pre.map Prod.snd) with
  | none => simp [staleVec, hs]
  | some x => simp [staleVec, hs]

/-- Witness for the C10 theorem at the counterexample group: prefix
a ↦ [1,2], b ↦ [], then the Vector member c ↦ [5,6]; the most recent
non-empty plain member is a, so the entry stored under c is [1,2]. -/
theorem GroupStatistics_vector_member_stale_entry_witness :
    GroupStatistics.data_prep
        ([("a", GMember.raw [some (1 : ℚ), some 2]), ("b", GMember.raw [])] ++
          [("c", GMember.vec [some 5, some 6])]) =
      match lastNonEmptyRaw
          ([("a", GMember.raw [some (1 : ℚ), some 2]), ("b", GMember.raw [])].map
            Prod.snd) with
      | some x => .ok ([("a", [some 1, some 2])] ++ [("c", drop_nan x)])
      | none => .error PyErr.unboundLocal :=
  GroupStatistics_vector_member_stale_entry
    [("a", GMember.raw [some (1 : ℚ), some 2]), ("b", GMember.raw [])]
    [("a", [some 1, some 2])] "c" [some 5, some 6] rfl (by decide)

/-- Witness for the C7 theorem: the concrete two-member group [X4, W4] under
the concrete oracle `S0` at alpha = 1/2. -/
theorem EqualVariance_branches_on_group_normality_witness :
    ∃ m, (([X4, W4] : List Vec).map (fun v => (S0.shapiro (drop_nan v)).2)).min? = some m ∧
      EqualVariance.run S0 (1/2) (TestData.items (([X4, W4] : List Vec).map CleanItem.vec)) =
        (if (1/2 : ℚ) < m then
          .ok [(.s "p_value", .num (S0.bartlett [X4, W4]).2),
               (.s "statistic", .num (S0.bartlett [X4, W4]).1), (.s "test", .str "Bartlett")]
        else
          .ok [(.s "p_value", .num (S0.levene [X4, W4]).2),
               (.s "statistic", .num (S0.levene [X4, W4]).1), (.s "test", .str "Levene")]) :=
  EqualVariance_branches_on_group_normality S0 (1/2) [X4, W4] (by decide) (by decide)

/-- Witness for the C8 theorem: the concrete two-member group [X4, W4] under
the concrete oracle `S0`. -/
theorem NormTest_group_reports_worst_member_witness :
    ∃ r, NormTest.run S0 (TestData.items (([X4, W4] : List Vec).map CleanItem.vec)) = .ok r ∧
      ∃ i, ∃ hi : i < ([X4, W4] : List Vec).length,
        Test.p_value r = some (RVal.num (S0.shapiro (([X4, W4] : List Vec).get ⟨i, hi⟩)).2) ∧
        Test.statistic r =
          some (RVal.num (S0.shapiro (([X4, W4] : List Vec).get ⟨i, hi⟩)).1) ∧
        ∀ j, (hj : j < ([X4, W4] : List Vec).length) →
          (S0.shapiro (([X4, W4] : List Vec).get ⟨i, hi⟩)).2 ≤
            (S0.shapiro (([X4, W4] : List Vec).get ⟨j, hj⟩)).2 :=
  NormTest_group_reports_worst_member S0 [X4, W4] (by decide)

end SciAnalysis
